import Mathlib

/-!
Verification of the connection/channel protocol engine of playwright-go:
the remote-object directory, the value codec between live channel references
and wire-level guid mappings, call-id allocation, the callback table, and
inbound message dispatch. Each Go function from connection.go and the
channel file is shallowly embedded as a computable Lean function; Go runtime
panics (failed type assertions on dynamically typed values) are modelled by
Option, with none standing for a panic.
-/

namespace Playwright

/-- A live channel reference. In Go a channel is identified by pointer
identity; the field ident models that identity so two distinct channel
objects with the same guid are distinguishable. -/
structure channel where
  guid : String
  ident : Nat
deriving DecidableEq, Repr

/-- A node of the remote-object directory. Go channelOwner also carries a
parent link, children and an initializer; the claims under verification only
need the guid, the declared type tag and the owning channel. -/
structure channelOwner where
  guid : String
  objectType : String
  chan : channel
deriving DecidableEq, Repr

/-- The wire error payload carried by an inbound response. -/
structure errorPayload where
  name : String
  message : String
  stack : String
deriving DecidableEq, Repr

mutual
/-- A dynamically typed Go value as it appears in protocol payloads:
nil, primitives, a live channel reference, a slice, or a string-keyed map.
Mirrors the interface values traversed by the reflection code in
connection.go. -/
inductive Value where
  | nullV : Value
  | boolV : Bool → Value
  | numV : Int → Value
  | strV : String → Value
  | chanV : channel → Value
  | listV : ValueList → Value
  | mapV : ValueMap → Value
/-- A slice of dynamically typed values. -/
inductive ValueList where
  | nil : ValueList
  | cons : Value → ValueList → ValueList
/-- A string-keyed map of dynamically typed values, kept as an ordered
association list. -/
inductive ValueMap where
  | nil : ValueMap
  | cons : String → Value → ValueMap → ValueMap
end

/-- Go map indexing m[key]: the value and whether the key is present. -/
def mapLookup : ValueMap → String → Option Value
  | .nil, _ => none
  | .cons k v rest, key => if k = key then some v else mapLookup rest key

/-- Go map assignment m[key] = v. -/
def mapSet : ValueMap → String → Value → ValueMap
  | .nil, key, v => .cons key v .nil
  | .cons k w rest, key, v =>
      if k = key then .cons k v rest else .cons k w (mapSet rest key v)

/-- Directory lookup c.objects[guid]. -/
def ownerLookup : List (String × channelOwner) → String → Option channelOwner
  | [], _ => none
  | (g, o) :: rest, guid => if g = guid then some o else ownerLookup rest guid

/-- Callback-table lookup by call id. -/
def callbackLookupBy {α : Type} : List (Nat × α) → Nat → Option α
  | [], _ => none
  | (i, cb) :: rest, id => if i = id then some cb else callbackLookupBy rest id

/-- Callback-table removal by call id (the delete half of LoadAndDelete). -/
def callbackRemoveBy {α : Type} : List (Nat × α) → Nat → List (Nat × α)
  | [], _ => []
  | (i, cb) :: rest, id =>
      if i = id then rest else (i, cb) :: callbackRemoveBy rest id

/-- Modelled from the spec: parseError (its file is not under src/) converts
a remote-reported error into a local error that preserves the message
text. -/
def parseError (e : errorPayload) : String := e.message

mutual
/-- connection.replaceChannelsWithGuids: the outbound half of the value
codec. A live channel reference becomes the one-entry map guid -> its guid
string; slices and maps are rebuilt with every element encoded; primitives
and nil pass through. -/
def replaceChannelsWithGuids : Value → Value
  | .nullV => .nullV
  | .boolV b => .boolV b
  | .numV n => .numV n
  | .strV s => .strV s
  | .chanV ch => .mapV (.cons "guid" (.strV ch.guid) .nil)
  | .listV xs => .listV (replaceChannelsWithGuidsList xs)
  | .mapV m => .mapV (replaceChannelsWithGuidsMap m)
/-- Elementwise outbound encoding of a slice. -/
def replaceChannelsWithGuidsList : ValueList → ValueList
  | .nil => .nil
  | .cons v rest =>
      .cons (replaceChannelsWithGuids v) (replaceChannelsWithGuidsList rest)
/-- Entrywise outbound encoding of a map. -/
def replaceChannelsWithGuidsMap : ValueMap → ValueMap
  | .nil => .nil
  | .cons k v rest =>
      .cons k (replaceChannelsWithGuids v) (replaceChannelsWithGuidsMap rest)
end

mutual
/-- connection.replaceGuidsWithChannels: the inbound half of the value
codec. A map carrying a guid key is replaced by the channel of the
registered owner of that guid; if the guid value is not a string the Go
code panics on the guid.(string) assertion (modelled as none); if the guid
is unregistered, or the map has no guid key, every entry is decoded
recursively. Slices are decoded elementwise; everything else passes
through. -/
def replaceGuidsWithChannels (objects : List (String × channelOwner)) :
    Value → Option Value
  | .nullV => some .nullV
  | .boolV b => some (.boolV b)
  | .numV n => some (.numV n)
  | .strV s => some (.strV s)
  | .chanV ch => some (.chanV ch)
  | .listV xs => (replaceGuidsWithChannelsList objects xs).map .listV
  | .mapV m =>
      match mapLookup m "guid" with
      | some (.strV g) =>
          match ownerLookup objects g with
          | some o => some (.chanV o.chan)
          | none => (replaceGuidsWithChannelsMap objects m).map .mapV
      | some _ => none
      | none => (replaceGuidsWithChannelsMap objects m).map .mapV
/-- Elementwise inbound decoding of a slice. -/
def replaceGuidsWithChannelsList (objects : List (String × channelOwner)) :
    ValueList → Option ValueList
  | .nil => some .nil
  | .cons v rest =>
      match replaceGuidsWithChannels objects v,
            replaceGuidsWithChannelsList objects rest with
      | some v2, some r2 => some (.cons v2 r2)
      | _, _ => none
/-- Entrywise inbound decoding of a map. -/
def replaceGuidsWithChannelsMap (objects : List (String × channelOwner)) :
    ValueMap → Option ValueMap
  | .nil => some .nil
  | .cons k v rest =>
      match replaceGuidsWithChannels objects v,
            replaceGuidsWithChannelsMap objects rest with
      | some v2, some r2 => some (.cons k v2 r2)
      | _, _ => none
end

mutual
/-- Side condition under which the outbound-then-inbound round trip
restores a value exactly: every channel reference in it is registered in
the directory with that very channel, and no map in it carries a guid key
that the decoder would either reify into a channel (a registered guid
string) or panic on (a non-string guid value). -/
def roundTripSafe (objects : List (String × channelOwner)) : Value → Bool
  | .chanV ch =>
      match ownerLookup objects ch.guid with
      | some o => o.chan == ch
      | none => false
  | .listV xs => roundTripSafeList objects xs
  | .mapV m =>
      (match mapLookup m "guid" with
       | none => true
       | some (.strV g) => (ownerLookup objects g).isNone
       | some _ => false) && roundTripSafeMap objects m
  | _ => true
/-- roundTripSafe for every element of a slice. -/
def roundTripSafeList (objects : List (String × channelOwner)) :
    ValueList → Bool
  | .nil => true
  | .cons v rest => roundTripSafe objects v && roundTripSafeList objects rest
/-- roundTripSafe for every entry of a map. -/
def roundTripSafeMap (objects : List (String × channelOwner)) :
    ValueMap → Bool
  | .nil => true
  | .cons _ v rest => roundTripSafe objects v && roundTripSafeMap objects rest
end

/-- A pending protocol callback as stored in the callback table. The Go
struct also holds the result channel and the abort channel; delivery is
modelled separately by callbackEvent. -/
structure protocolCallback where
  noReply : Bool
deriving DecidableEq, Repr

/-- newProtocolCallback as stored by sendMessageToServer. -/
def newProtocolCallback (noReply : Bool) : protocolCallback :=
  { noReply := noReply }

/-- The result struct delivered through a callback: a data value and an
optional error. -/
structure result where
  Data : Value
  Error : Option String

/-- Per-call diagnostic data staged by WrapAPICall and consumed by
sendMessageToServer. -/
structure parsedStackTrace where
  frames : List ValueMap
  metadata : ValueMap

/-- The connection state touched by the claims: the object directory, the
callback table, the id counter, the staged apiZone metadata, and the
teardown flags (whether an afterClose hook is installed, whether it ran,
and whether the abort channel was closed). -/
structure connection where
  objects : List (String × channelOwner)
  callbacks : List (Nat × protocolCallback)
  lastID : Nat
  apiZone : Option parsedStackTrace
  afterClosePresent : Bool
  afterCloseRan : Bool
  abortFired : Bool

/-- An inbound wire message as dispatched by connection.Dispatch. ID zero
means the id field is absent (a guid-addressed notification); Result is
nullV when absent. -/
structure message where
  ID : Nat
  GUID : String
  Method : String
  Params : ValueMap
  Result : Value
  Error : Option errorPayload

/-- The externally observable action taken by one Dispatch step: nothing,
silently discarding a noReply response, resolving a waiting callback,
invoking the object factory, adopting, disposing, or emitting an event on
the addressed channel. -/
inductive dispatchEffect where
  | noop : dispatchEffect
  | discardedNoReply : Nat → dispatchEffect
  | resolved : Nat → result → dispatchEffect
  | created : Option channelOwner → String → String → Value → dispatchEffect
  | adopted : channelOwner → channelOwner → dispatchEffect
  | disposed : channelOwner → dispatchEffect
  | emitted : String → String → Value → dispatchEffect

/-- connection.Dispatch. Returns the updated connection state and the
effect performed, or none when the Go code panics: on the
cb.(*protocolCallback) assertion when a response id has no table entry, on
the guid/type string assertions of the control verbs, and on any panic
inside the inbound codec. The create branch runs before the unknown-owner
drop check, exactly as in the source. -/
def Dispatch (c : connection) (msg : message) :
    Option (connection × dispatchEffect) :=
  if msg.ID ≠ 0 then
    match callbackLookupBy c.callbacks msg.ID with
    | none => none
    | some cb =>
        let c2 := { c with callbacks := callbackRemoveBy c.callbacks msg.ID }
        if cb.noReply then some (c2, .discardedNoReply msg.ID)
        else
          match msg.Error with
          | some e =>
              some (c2, .resolved msg.ID { Data := .nullV, Error := some (parseError e) })
          | none =>
              match replaceGuidsWithChannels c.objects msg.Result with
              | none => none
              | some data =>
                  some (c2, .resolved msg.ID { Data := data, Error := none })
  else
    let parent := ownerLookup c.objects msg.GUID
    if msg.Method = "__create__" then
      match mapLookup msg.Params "type", mapLookup msg.Params "guid" with
      | some (.strV ty), some (.strV g) =>
          match replaceGuidsWithChannels c.objects
              ((mapLookup msg.Params "initializer").getD .nullV) with
          | some (.mapV im) => some (c, .created parent ty g (.mapV im))
          | _ => none
      | _, _ => none
    else
      match parent with
      | none => some (c, .noop)
      | some o =>
          if msg.Method = "__adopt__" then
            match mapLookup msg.Params "guid" with
            | some (.strV g) =>
                match ownerLookup c.objects g with
                | none => some (c, .noop)
                | some child => some (c, .adopted o child)
            | _ => none
          else if msg.Method = "__dispose__" then some (c, .disposed o)
          else if o.objectType = "JsonPipe" then
            some (c, .emitted msg.GUID msg.Method (.mapV msg.Params))
          else
            match replaceGuidsWithChannels c.objects (.mapV msg.Params) with
            | none => none
            | some p => some (c, .emitted msg.GUID msg.Method p)

/-- The outbound envelope written by sendMessageToServer. -/
structure outboundMessage where
  id : Nat
  guid : String
  method : String
  params : Value
  metadata : ValueMap

/-- sync.Map.LoadOrStore on the callback table: keep an existing entry,
otherwise insert the given one; returns the entry now present. -/
def callbacksLoadOrStore (cbs : List (Nat × protocolCallback)) (id : Nat)
    (cb : protocolCallback) : protocolCallback × List (Nat × protocolCallback) :=
  match callbackLookupBy cbs id with
  | some existing => (existing, cbs)
  | none => (cb, cbs ++ [(id, cb)])

/-- connection.sendMessageToServer: allocate the next id, consume the
staged apiZone metadata (falling back to empty metadata), stamp wallTime,
encode params through the outbound codec, register a protocol callback
under the new id via LoadOrStore, and build the envelope. The transport
write and the fire-and-forget tracing forward are external effects with no
bearing on the connection state modelled here; wallTime is a parameter
because the clock is. -/
def sendMessageToServer (c : connection) (guid method : String)
    (params : Value) (noReply : Bool) (wallTime : Int) :
    connection × outboundMessage × protocolCallback :=
  let id := c.lastID + 1
  let staged := c.apiZone
  let c2 := { c with lastID := id, apiZone := none }
  let md0 : ValueMap :=
    match staged with
    | some z => z.metadata
    | none => .nil
  let metadata := mapSet md0 "wallTime" (.numV wallTime)
  let msg : outboundMessage :=
    { id := id, guid := guid, method := method,
      params := replaceChannelsWithGuids params, metadata := metadata }
  let stored := callbacksLoadOrStore c2.callbacks id (newProtocolCallback noReply)
  ({ c2 with callbacks := stored.2 }, msg, stored.1)

/-- The staging step of connection.WrapAPICall: if apiZone already holds
staged metadata the call proceeds without touching it, otherwise the freshly
serialized stack z is staged. The runtime stack capture itself is not
modelled, so z is a parameter. -/
def WrapAPICallStage (c : connection) (z : parsedStackTrace) : connection :=
  match c.apiZone with
  | some _ => c
  | none => { c with apiZone := some z }

/-- What a blocked GetResult eventually observes: a delivered result, or
the abort broadcast. -/
inductive callbackEvent where
  | delivered : result → callbackEvent
  | aborted : callbackEvent

/-- The canonical error every waiter receives when the connection aborts. -/
def connectionClosedError : String := "Connection closed"

/-- protocolCallback.GetResult: a noReply callback returns immediately with
no value and no error; otherwise the delivered result's data and error are
returned, or the canonical closed-connection error if the abort fired. -/
def protocolCallback.GetResult (pc : protocolCallback) (ev : callbackEvent) :
    Value × Option String :=
  if pc.noReply then (.nullV, none)
  else
    match ev with
    | .delivered r => (r.Data, r.Error)
    | .aborted => (.nullV, some connectionClosedError)

/-- The result-shaping tail of channel.innerSend, applied to the pair
returned by GetResult. On error: propagate. A nil result returns nil. With
returnAsDict the raw result is returned untouched. Otherwise a map result
is unwrapped: empty map returns nil, and a map yields the value of an
entry chosen by Go map iteration, which for the one-entry case is
necessarily the lone entry; the model picks the first entry, exact in that
case. Non-map results pass through. -/
def innerSendFinish (returnAsDict : Bool) (res : Value × Option String) :
    Value × Option String :=
  match res.2 with
  | some e => (.nullV, some e)
  | none =>
      match res.1 with
      | .nullV => (.nullV, none)
      | r =>
          if returnAsDict then (r, none)
          else
            match r with
            | .mapV .nil => (.nullV, none)
            | .mapV (.cons _ v _) => (v, none)
            | other => (other, none)

/-- connection.cleanup: run the afterClose hook when installed, then close
the abort channel unless already closed. -/
def cleanup (c : connection) : connection :=
  let c2 := if c.afterClosePresent then { c with afterCloseRan := true } else c
  if c2.abortFired then c2 else { c2 with abortFired := true }

/-- connection.Stop: run the onClose hook; on error return it with no
teardown, otherwise run cleanup. The hook's outcome is a parameter since
the hook is externally supplied. -/
def Stop (c : connection) (onCloseResult : Option String) :
    Option String × connection :=
  match onCloseResult with
  | some e => (some e, c)
  | none => (none, cleanup c)

/-- One queued call for a sequence of sends. -/
structure sendReq where
  guid : String
  method : String
  params : Value
  noReply : Bool
  wallTime : Int

/-- The ids allocated by a sequence of sendMessageToServer calls issued on
one connection, threading the state through. -/
def sendSeqIds (c : connection) : List sendReq → List Nat
  | [] => []
  | r :: rs =>
      let out := sendMessageToServer c r.guid r.method r.params r.noReply r.wallTime
      out.2.1.id :: sendSeqIds out.1 rs

/-- A connection with empty directory and callback table, used by concrete
witnesses. -/
def conn0 : connection :=
  { objects := [], callbacks := [], lastID := 0, apiZone := none,
    afterClosePresent := true, afterCloseRan := false, abortFired := false }

/-- A registered channel used by concrete witnesses. -/
def chan1 : channel := { guid := "g1", ident := 7 }

/-- Its owner in the directory. -/
def owner1 : channelOwner :=
  { guid := "g1", objectType := "Browser", chan := chan1 }

/-- A one-owner directory. -/
def objects1 : List (String × channelOwner) := [("g1", owner1)]

/-- A connection whose directory registers owner1. -/
def conn1 : connection := { conn0 with objects := objects1 }

/-- A value inside the round-trip claim's scope: it contains the live
registered channel chan1, and also a plain map whose guid entry happens to
name a registered guid. -/
def rtValue : Value :=
  .listV (.cons (.chanV chan1)
    (.cons (.mapV (.cons "guid" (.strV "g1") .nil)) .nil))

/-- What the round trip actually produces from rtValue: the plain map has
been reified into a second channel reference. -/
def rtValueDecoded : Value :=
  .listV (.cons (.chanV chan1) (.cons (.chanV chan1) .nil))

/-- A round-trip-safe concrete value: a map holding a registered channel
directly and another one nested inside a slice next to a number. -/
def rtGoodValue : Value :=
  .mapV (.cons "a" (.chanV chan1)
    (.cons "b" (.listV (.cons (.chanV chan1) (.cons (.numV 3) .nil))) .nil))

/-- An inbound response whose id has no entry in conn1's (empty) callback
table. -/
def orphanResponse : message :=
  { ID := 5, GUID := "", Method := "", Params := .nil,
    Result := .nullV, Error := none }

/-- An owner of the passthrough byte-pipe kind, and a connection that
registers it. -/
def pipeOwner : channelOwner :=
  { guid := "p1", objectType := "JsonPipe", chan := { guid := "p1", ident := 3 } }

/-- A connection registering only pipeOwner. -/
def connPipe : connection := { conn0 with objects := [("p1", pipeOwner)] }

/-- An event addressed to the pipe whose params would make the inbound
codec panic if it were applied: the guid key holds a number, not a
string. -/
def pipeEvent : message :=
  { ID := 0, GUID := "p1", Method := "message",
    Params := .cons "guid" (.numV 9) .nil, Result := .nullV, Error := none }

/-- A create notification addressed to a guid that is not registered. -/
def orphanCreate : message :=
  { ID := 0, GUID := "ghost", Method := "__create__",
    Params := .cons "type" (.strV "Browser")
      (.cons "guid" (.strV "b1") (.cons "initializer" (.mapV .nil) .nil)),
    Result := .nullV, Error := none }

/-- Looking up an id just appended to a table that did not contain it finds
the appended entry. -/
theorem callbackLookupBy_append_self {α : Type} :
    ∀ (cbs : List (Nat × α)) (id : Nat) (cb : α),
      callbackLookupBy cbs id = none →
      callbackLookupBy (cbs ++ [(id, cb)]) id = some cb
  | [], id, cb, _ => by simp [callbackLookupBy]
  | (i, x) :: tl, id, cb, h => by
      by_cases hi : i = id
      · simp [callbackLookupBy, hi] at h
      · simp only [callbackLookupBy, hi, if_false, List.cons_append] at h ⊢
        simpa [callbackLookupBy, hi] using
          callbackLookupBy_append_self tl id cb h

/-- C3: the result shaping of channel.innerSend. Through the convenience
path (Send, returnAsDict false) a one-entry map result yields the lone
entry's value, a nil result and an empty-map result yield nil; through the
raw path (SendReturnAsDict, returnAsDict true) any result, nil included,
is returned untouched. -/
theorem innerSend_result_shaping :
    (∀ (k : String) (v : Value),
        innerSendFinish false (.mapV (.cons k v .nil), none) = (v, none)) ∧
    (∀ r : Value, innerSendFinish true (r, none) = (r, none)) ∧
    innerSendFinish false (.nullV, none) = (.nullV, none) ∧
    innerSendFinish false (.mapV .nil, none) = (.nullV, none) := by
  refine ⟨fun k v => rfl, fun r => ?_, rfl, rfl⟩
  cases r <;> rfl

/-- C5: protocolCallback.GetResult. A noReply callback returns immediately
with no value and no error whatever happens; any awaiting callback returns
the delivered data and error on resolution, and the one canonical
closed-connection error when the abort broadcast fires, identical for
every pending callback because it is a fixed constant. -/
theorem getResult_behavior :
    (∀ ev : callbackEvent,
        protocolCallback.GetResult { noReply := true } ev = (.nullV, none)) ∧
    (∀ r : result,
        protocolCallback.GetResult { noReply := false } (.delivered r)
          = (r.Data, r.Error)) ∧
    protocolCallback.GetResult { noReply := false } .aborted
      = (.nullV, some connectionClosedError) := by
  exact ⟨fun ev => rfl, fun r => rfl, rfl⟩

/-- C9: when the onClose hook fails, Stop returns that error and performs
no teardown at all: the connection state, and with it the abort flag, the
afterClose flag, the callback table and the directory, is returned
unchanged. -/
theorem stop_error_no_teardown (c : connection) (e : String) :
    Stop c (some e) = (some e, c) := rfl

/-- C4 is refuted by this run: a noReply send on a fresh connection still
registers a callback for the freshly allocated id 1, where the claim says
none may be registered. -/
theorem send_noReply_still_registers :
    callbackLookupBy
      (sendMessageToServer conn0 "g1" "m" .nullV true 0).1.callbacks 1
      = some { noReply := true } := rfl

/-- C4 (amended): sendMessageToServer registers a protocol callback keyed
by the newly allocated envelope id before returning, for noReply and
awaited calls alike; the noReply flag is recorded on the stored callback,
and Dispatch discards the response for it instead. -/
theorem send_always_registers_callback (c : connection) (guid method : String)
    (params : Value) (noReply : Bool) (w : Int) :
    callbackLookupBy
        (sendMessageToServer c guid method params noReply w).1.callbacks
        (sendMessageToServer c guid method params noReply w).2.1.id
      = some (sendMessageToServer c guid method params noReply w).2.2 := by
  unfold sendMessageToServer callbacksLoadOrStore
  cases h : callbackLookupBy c.callbacks (c.lastID + 1) with
  | some existing => simp [h]
  | none => simp [h, callbackLookupBy_append_self c.callbacks (c.lastID + 1) _ h]

/-- C1 is refuted by this run: dispatching a response whose id 5 has no
callback-table entry panics on the nil cb.(*protocolCallback) type
assertion (none models the panic), rather than resolving to a silent
no-op that leaves the state unchanged. -/
theorem dispatch_orphan_response_not_noop :
    Dispatch conn1 orphanResponse = none ∧
    Dispatch conn1 orphanResponse ≠ some (conn1, .noop) := by
  refine ⟨rfl, ?_⟩
  intro h
  rw [show Dispatch conn1 orphanResponse = none from rfl] at h
  exact Option.noConfusion h

/-- C1 (amended): for every inbound response message whose id is present
but has no matching entry in the callback table, Dispatch panics on the
nil interface type assertion, modelled as none; it neither delivers
anything nor completes as a no-op. -/
theorem dispatch_orphan_response_panics (c : connection) (msg : message)
    (hid : msg.ID ≠ 0) (h : callbackLookupBy c.callbacks msg.ID = none) :
    Dispatch c msg = none := by
  unfold Dispatch
  simp [hid, h]

/-- Concrete instantiation of dispatch orphan response panics. -/
theorem dispatch_orphan_response_panics_witness :
    Dispatch conn0 orphanResponse = none :=
  dispatch_orphan_response_panics conn0 orphanResponse (by decide) rfl

/-- C8: consume-and-clear of the staged apiZone metadata. A send leaves
the apiZone slot empty; a second send issued with nothing newly staged
falls back to metadata holding only the wallTime stamp; a send issued
right after staging z consumes exactly z's metadata; and staging while
metadata is already staged never replaces it, so a nested WrapAPICall is
a no-op on the slot. -/
theorem apiZone_consume_and_clear :
    (∀ (c : connection) (g m : String) (p : Value) (nr : Bool) (w : Int),
        (sendMessageToServer c g m p nr w).1.apiZone = none) ∧
    (∀ (c : connection) (g m g2 m2 : String) (p p2 : Value) (nr nr2 : Bool)
        (w w2 : Int),
        (sendMessageToServer (sendMessageToServer c g m p nr w).1
            g2 m2 p2 nr2 w2).2.1.metadata
          = .cons "wallTime" (.numV w2) .nil) ∧
    (∀ (c : connection) (z : parsedStackTrace) (g m : String) (p : Value)
        (nr : Bool) (w : Int),
        (sendMessageToServer { c with apiZone := some z } g m p nr w).2.1.metadata
          = mapSet z.metadata "wallTime" (.numV w)) ∧
    (∀ (c : connection) (z z2 : parsedStackTrace),
        WrapAPICallStage (WrapAPICallStage c z) z2 = WrapAPICallStage c z) := by
  refine ⟨fun c g m p nr w => rfl, fun c g m g2 m2 p p2 nr nr2 w w2 => rfl,
    fun c z g m p nr w => rfl, fun c z z2 => ?_⟩
  cases h : c.apiZone with
  | some z0 => simp [WrapAPICallStage, h]
  | none => simp [WrapAPICallStage, h]

/-- C7: an inbound guid-addressed event (id absent, method none of the
three control verbs, owner registered) is emitted with its params passed
through completely undecoded when the owner's declared type is JsonPipe,
and with its params decoded through the inbound value codec for every
other owner type (none there means the codec panicked). -/
theorem dispatch_event_param_decoding (c : connection) (msg : message)
    (o : channelOwner) (hid : msg.ID = 0)
    (h1 : msg.Method ≠ "__create__") (h2 : msg.Method ≠ "__adopt__")
    (h3 : msg.Method ≠ "__dispose__")
    (ho : ownerLookup c.objects msg.GUID = some o) :
    Dispatch c msg =
      if o.objectType = "JsonPipe" then
        some (c, .emitted msg.GUID msg.Method (.mapV msg.Params))
      else
        (replaceGuidsWithChannels c.objects (.mapV msg.Params)).map
          (fun p => (c, .emitted msg.GUID msg.Method p)) := by
  unfold Dispatch
  simp only [hid, ne_eq, not_true_eq_false, if_false, ho]
  simp only [h1, if_false, h2, h3]
  by_cases hj : o.objectType = "JsonPipe"
  · simp [hj]
  · simp only [hj, if_false]
    cases replaceGuidsWithChannels c.objects (.mapV msg.Params) <;> simp

/-- Concrete instantiation: an event on the registered JsonPipe owner is
delivered with its params untouched even though the inbound codec would
panic on them. -/
theorem dispatch_event_param_decoding_witness :
    Dispatch connPipe pipeEvent
      = some (connPipe, .emitted "p1" "message"
          (.mapV (.cons "guid" (.numV 9) .nil))) := by
  have h := dispatch_event_param_decoding connPipe pipeEvent pipeOwner rfl
    (by decide) (by decide) (by decide) rfl
  simpa using h

/-- C10: a create notification whose addressed parent guid is not in the
directory still reaches the object factory, because the create branch runs
before the unknown-owner drop check: the factory is invoked with a nil
parent (none) instead of the message being dropped as a no-op. -/
theorem dispatch_create_nil_parent (c : connection) (msg : message)
    (ty g : String) (im : ValueMap) (hid : msg.ID = 0)
    (hm : msg.Method = "__create__")
    (hty : mapLookup msg.Params "type" = some (.strV ty))
    (hg : mapLookup msg.Params "guid" = some (.strV g))
    (hi : replaceGuidsWithChannels c.objects
        ((mapLookup msg.Params "initializer").getD .nullV) = some (.mapV im))
    (hp : ownerLookup c.objects msg.GUID = none) :
    Dispatch c msg = some (c, .created none ty g (.mapV im)) := by
  unfold Dispatch
  simp [hid, hm, hty, hg, hi, hp]

/-- Concrete instantiation of dispatch create nil parent. -/
theorem dispatch_create_nil_parent_witness :
    Dispatch conn0 orphanCreate
      = some (conn0, .created none "Browser" "b1" (.mapV .nil)) :=
  dispatch_create_nil_parent conn0 orphanCreate "Browser" "b1" .nil
    rfl rfl rfl rfl rfl rfl

/-- The id counter after a send is its predecessor plus one. -/
theorem sendMessageToServer_lastID (c : connection) (g m : String) (p : Value)
    (nr : Bool) (w : Int) :
    (sendMessageToServer c g m p nr w).1.lastID = c.lastID + 1 := rfl

/-- The envelope id of a send is the incremented counter. -/
theorem sendMessageToServer_id (c : connection) (g m : String) (p : Value)
    (nr : Bool) (w : Int) :
    (sendMessageToServer c g m p nr w).2.1.id = c.lastID + 1 := rfl

/-- Unfolding one step of sendSeqIds. -/
theorem sendSeqIds_cons (c : connection) (r : sendReq) (rs : List sendReq) :
    sendSeqIds c (r :: rs) = (c.lastID + 1) ::
      sendSeqIds
        (sendMessageToServer c r.guid r.method r.params r.noReply r.wallTime).1
        rs := rfl

/-- Every id allocated by a sequence of sends exceeds the counter the
sequence started from. -/
theorem sendSeqIds_mem_gt :
    ∀ (rs : List sendReq) (c : connection) (i : Nat),
      i ∈ sendSeqIds c rs → c.lastID < i
  | [], c, i, hi => by simp [sendSeqIds] at hi
  | r :: rs, c, i, hi => by
      rw [sendSeqIds_cons] at hi
      rcases List.mem_cons.mp hi with h | h
      · omega
      · have hgt := sendSeqIds_mem_gt rs _ i h
        rw [sendMessageToServer_lastID] at hgt
        omega

/-- C6: across any sequence of sendMessageToServer calls threaded through
one connection, the allocated ids are strictly increasing: every later
call's id is greater than every earlier call's id, so an id is never
reused while its callback is still outstanding. -/
theorem send_ids_strictly_increasing (c : connection) (rs : List sendReq) :
    (sendSeqIds c rs).Pairwise (· < ·) := by
  induction rs generalizing c with
  | nil => exact List.Pairwise.nil
  | cons r rs ih =>
      rw [sendSeqIds_cons]
      refine List.Pairwise.cons (fun j hj => ?_) (ih _)
      have hgt := sendSeqIds_mem_gt rs _ j hj
      rw [sendMessageToServer_lastID] at hgt
      omega

/-- Outbound encoding preserves map keys: looking a key up in an encoded
map finds the encoded original entry. -/
theorem mapLookup_encodeMap :
    ∀ (m : ValueMap) (key : String),
      mapLookup (replaceChannelsWithGuidsMap m) key
        = (mapLookup m key).map replaceChannelsWithGuids
  | .nil, _ => rfl
  | .cons k v rest, key => by
      by_cases h : k = key
      · simp [replaceChannelsWithGuidsMap, mapLookup, h]
      · simp [replaceChannelsWithGuidsMap, mapLookup, h,
          mapLookup_encodeMap rest key]

mutual
/-- Round trip through the codec restores any roundTripSafe value. -/
theorem roundTrip_val (objects : List (String × channelOwner)) :
    ∀ (v : Value), roundTripSafe objects v = true →
      replaceGuidsWithChannels objects (replaceChannelsWithGuids v) = some v
  | .nullV, _ => rfl
  | .boolV b, _ => rfl
  | .numV n, _ => rfl
  | .strV s, _ => rfl
  | .chanV ch, h => by
      simp only [roundTripSafe] at h
      cases ho : ownerLookup objects ch.guid with
      | none => rw [ho] at h; simp at h
      | some o =>
          rw [ho] at h
          simp only [beq_iff_eq] at h
          simp [replaceChannelsWithGuids, replaceGuidsWithChannels,
            mapLookup, ho, h]
  | .listV xs, h => by
      have hl := roundTrip_list objects xs (by simpa [roundTripSafe] using h)
      simp [replaceChannelsWithGuids, replaceGuidsWithChannels, hl]
  | .mapV m, h => by
      simp only [roundTripSafe, Bool.and_eq_true] at h
      obtain ⟨hg, hm⟩ := h
      have hdm := roundTrip_map objects m hm
      simp only [replaceChannelsWithGuids, replaceGuidsWithChannels,
        mapLookup_encodeMap]
      cases hk : mapLookup m "guid" with
      | none => simp [hk, hdm]
      | some gv =>
          rw [hk] at hg
          cases gv with
          | strV g =>
              simp only [Option.isNone_iff_eq_none] at hg
              simp [hk, hg, hdm, replaceChannelsWithGuids]
          | nullV => simp at hg
          | boolV b => simp at hg
          | numV n => simp at hg
          | chanV ch => simp at hg
          | listV xs => simp at hg
          | mapV mm => simp at hg
/-- Round trip through the codec restores every element of a
roundTripSafe slice. -/
theorem roundTrip_list (objects : List (String × channelOwner)) :
    ∀ (xs : ValueList), roundTripSafeList objects xs = true →
      replaceGuidsWithChannelsList objects (replaceChannelsWithGuidsList xs)
        = some xs
  | .nil, _ => rfl
  | .cons v rest, h => by
      simp only [roundTripSafeList, Bool.and_eq_true] at h
      have h1 := roundTrip_val objects v h.1
      have h2 := roundTrip_list objects rest h.2
      simp [replaceChannelsWithGuidsList, replaceGuidsWithChannelsList, h1, h2]
/-- Round trip through the codec restores every entry of a roundTripSafe
map. -/
theorem roundTrip_map (objects : List (String × channelOwner)) :
    ∀ (m : ValueMap), roundTripSafeMap objects m = true →
      replaceGuidsWithChannelsMap objects (replaceChannelsWithGuidsMap m)
        = some m
  | .nil, _ => rfl
  | .cons k v rest, h => by
      simp only [roundTripSafeMap, Bool.and_eq_true] at h
      have h1 := roundTrip_val objects v h.1
      have h2 := roundTrip_map objects rest h.2
      simp [replaceChannelsWithGuidsMap, replaceGuidsWithChannelsMap, h1, h2]
end

/-- C2 is refuted by this run: rtValue contains the live registered
channel chan1, yet encoding it and decoding the resulting wire value does
not restore it — the sibling plain map whose guid entry names a
registered identifier is reified into a second channel reference. -/
theorem codec_roundTrip_counterexample :
    replaceGuidsWithChannels objects1 (replaceChannelsWithGuids rtValue)
      = some rtValueDecoded ∧
    replaceGuidsWithChannels objects1 (replaceChannelsWithGuids rtValue)
      ≠ some rtValue := by
  refine ⟨rfl, fun hcontra => ?_⟩
  rw [show replaceGuidsWithChannels objects1 (replaceChannelsWithGuids rtValue)
      = some rtValueDecoded from rfl] at hcontra
  have h2 : rtValueDecoded = rtValue := Option.some.inj hcontra
  simp only [rtValueDecoded, rtValue] at h2
  simp at h2

/-- C2 (amended): the round-trip law holds for every value, arbitrarily
nested, whose channel references are all registered in the directory and
whose maps carry no guid entry that the decoder would reify (a registered
guid string) or panic on (a non-string guid value): encoding with
replaceChannelsWithGuids and decoding with replaceGuidsWithChannels
restores the identical value, channel identities included. -/
theorem codec_roundTrip (objects : List (String × channelOwner)) (v : Value)
    (h : roundTripSafe objects v = true) :
    replaceGuidsWithChannels objects (replaceChannelsWithGuids v) = some v :=
  roundTrip_val objects v h

/-- Concrete instantiation of the round trip on rtGoodValue, which nests
the registered channel chan1 inside both a map and a slice. -/
theorem codec_roundTrip_witness :
    roundTripSafe objects1 rtGoodValue = true ∧
    replaceGuidsWithChannels objects1 (replaceChannelsWithGuids rtGoodValue)
      = some rtGoodValue :=
  ⟨rfl, codec_roundTrip objects1 rtGoodValue rfl⟩

end Playwright
